import Mathlib

/-!
Shallow embedding of `cloudinit/config/cc_grub_dpkg.py` (the grub-dpkg
cloud-init module) and proofs about its decision logic.

External collaborators (subprocess invocations, filesystem checks) are
modelled by an explicit environment `Env`; each subprocess invocation the
module performs is recorded in a trace of `Call` events.  A Python
exception that escapes a function is modelled by `Except.error`.

Python strings are modelled by `String`; the Python string methods used by
the module (`strip`, `split`, `splitlines`, `lower`, substring test,
lexicographic comparison) are re-implemented structurally over the
character list so that every definition evaluates by kernel reduction.
-/

namespace GrubDpkg

/-- Whitespace characters recognised by Python's `str.strip` / `str.split`. -/
def isWS (c : Char) : Bool :=
  c = ' ' || c = '\t' || c = '\n' || c = '\r' || c = '\x0b' || c = '\x0c'

/-- Drop leading and trailing whitespace from a character list. -/
def trimL (l : List Char) : List Char :=
  ((l.dropWhile isWS).reverse.dropWhile isWS).reverse

/-- Model of Python `str.strip()`. -/
def pyStrip (s : String) : String :=
  String.mk (trimL s.data)

/-- Model of Python `str.lower()` (ASCII case folding). -/
def pyLower (s : String) : String :=
  String.mk (s.data.map Char.toLower)

/-- Auxiliary worker for `pySplitWS`: `acc` holds the current word reversed. -/
def splitWSAux : List Char → List Char → List (List Char)
  | [], acc => if acc = [] then [] else [acc.reverse]
  | c :: cs, acc =>
    if isWS c then
      if acc = [] then splitWSAux cs [] else acc.reverse :: splitWSAux cs []
    else splitWSAux cs (c :: acc)

/-- Model of Python `str.split()` (no argument): split on runs of
whitespace, discarding empty words. -/
def pySplitWS (s : String) : List String :=
  (splitWSAux s.data []).map String.mk

/-- Auxiliary worker for `pySplitlines`: `acc` holds the current line reversed. -/
def splitlinesAux : List Char → List Char → List (List Char)
  | [], acc => if acc = [] then [] else [acc.reverse]
  | c :: cs, acc =>
    if c = '\n' then acc.reverse :: splitlinesAux cs []
    else splitlinesAux cs (c :: acc)

/-- Model of Python `str.splitlines()` restricted to `'\n'` terminators:
a trailing newline produces no trailing empty line. -/
def pySplitlines (s : String) : List String :=
  (splitlinesAux s.data []).map String.mk

/-- Whether `pat` is a prefix of `l` (character lists). -/
def startsWithL : List Char → List Char → Bool
  | [], _ => true
  | _ :: _, [] => false
  | p :: ps, c :: cs => p = c && startsWithL ps cs

/-- Whether `pat` occurs as a contiguous sublist of `l`. -/
def occursInL (pat : List Char) : List Char → Bool
  | [] => startsWithL pat []
  | c :: cs => startsWithL pat (c :: cs) || occursInL pat cs

/-- Model of Python `pat in s` substring membership. -/
def pyContains (s pat : String) : Bool :=
  occursInL pat.data s.data

/-- Lexicographic comparison of character lists by code point
(the order Python uses to compare strings). -/
def lexLe : List Char → List Char → Bool
  | [], _ => true
  | _ :: _, [] => false
  | a :: as, b :: bs =>
    if a.toNat < b.toNat then true
    else if b.toNat < a.toNat then false
    else lexLe as bs

/-- Lexicographic order on strings, as a proposition. -/
def strLe (a b : String) : Prop :=
  lexLe a.data b.data = true

instance : DecidableRel strLe := fun a b => by
  unfold strLe
  infer_instance

/-- Model of Python `sorted` on strings (a stable sort by `strLe`). -/
def pySorted (l : List String) : List String :=
  List.insertionSort strLe l

/-- Outcome of one `subp.subp` invocation: captured stdout, a
`ProcessExecutionError` (with whether its `reason` is a
`FileNotFoundError`, and its `stderr`), or any other exception. -/
inductive SubpRes where
  | ok (stdout : String)
  | procError (reasonFileNotFound : Bool) (stderr : String)
  | otherExc
deriving DecidableEq

/-- Data of a `ProcessExecutionError` that escapes a function. -/
structure PEE where
  reasonFileNotFound : Bool
  stderr : String
deriving DecidableEq

deriving instance DecidableEq for Except

/-- Subprocess invocations the module can perform, recorded as a trace. -/
inductive Call where
  | grubProbe (mountPoint : String)
  | udevadmInfo (disk : String)
  | debconfShowListOwners
  | debconfSetSelections (stdin : String)
deriving DecidableEq

/-- Environment: mocked results of the external collaborators and
filesystem checks. -/
structure Env where
  /-- Result of `grub-probe -t disk <mountPoint>`, by mount point. -/
  probeResult : String → SubpRes
  /-- Result of `os.path.exists` on a disk path. -/
  pathExists : String → Bool
  /-- Result of `udevadm info --root --query=symlink <disk>`, by disk:
  `some stdout` on success, `none` when the call raises. -/
  udevResult : String → Option String
  /-- Result of `debconf-show --listowners`: `some stdout` on success,
  `none` when the call raises. -/
  listOwners : Option String
  /-- Result of `os.path.exists "/sys/firmware/efi"`: `some b` normally,
  `none` when the check raises `OSError`. -/
  efiCheck : Option Bool

/-- Raw value of a boolean-like configuration key: a native boolean or a
loosely-typed string. -/
inductive CfgVal where
  | bool (b : Bool)
  | str (s : String)
deriving DecidableEq

/-- Effective `grub_dpkg` sub-configuration.  String-valued keys are read
through `util.get_cfg_option_str`; `cloudinit/util.py` is not among the
sources, so, modelled from the spec: the lookup yields the configured
string when the key is present and the default (`None`) otherwise. -/
structure MyCfg where
  /-- Key `enabled` (boolean-like), absent when `none`. -/
  enabled : Option CfgVal := none
  /-- Key `grub-pc/install_devices`, absent when `none`. -/
  pc_install_devices : Option String := none
  /-- Key `grub-pc/install_devices_empty` (boolean-like), absent when `none`. -/
  pc_install_devices_empty : Option CfgVal := none
  /-- Key `grub-efi/install_devices`, absent when `none`. -/
  efi_install_devices : Option String := none
deriving DecidableEq

/-- Top-level configuration document: the `grub_dpkg` key and its
documented alias `grub-dpkg`. -/
structure Cfg where
  grub_dpkg : Option MyCfg := none
  grub_dpkg_alias : Option MyCfg := none
deriving DecidableEq

/-- Resolution `cfg.get("grub_dpkg", cfg.get("grub-dpkg", {}))` followed by
`if not mycfg: mycfg = {}`. -/
def effective_cfg (cfg : Cfg) : MyCfg :=
  match cfg.grub_dpkg with
  | some m => m
  | none =>
    match cfg.grub_dpkg_alias with
    | some m => m
    | none => {}

/-- Modelled from the spec: `util.translate_bool` (`cloudinit/util.py` is
not among the sources) — a non-boolean config value is truthy when its
lowercased, stripped string form is one of the spec's truthy variants
"true", "yes", "1". -/
def translate_bool (s : String) : Bool :=
  ["true", "yes", "1"].contains (pyStrip (pyLower s))

/-- Modelled from the spec: `util.is_false` (`cloudinit/util.py` is not
among the sources) — a value evaluates false when it is the native boolean
`False` or when its lowercased, stripped string form is one of the falsy
variants "off", "0", "no", "false". -/
def is_false (v : CfgVal) : Bool :=
  match v with
  | CfgVal.bool b => !b
  | CfgVal.str s => ["off", "0", "no", "false"].contains (pyStrip (pyLower s))

/-- Embedding of `is_efi_booted`: `os.path.exists("/sys/firmware/efi")`,
with an `OSError` treated as "assume BIOS". -/
def is_efi_booted (env : Env) : Bool :=
  match env.efiCheck with
  | some b => b
  | none => false

/-- Embedding of `fetch_idevs(mount_point, log)`.  Returns the identifier
(or `Except.error` when the function re-raises a `ProcessExecutionError`)
together with the trace of subprocess invocations it performed. -/
def fetch_idevs (env : Env) (mount_point : String) :
    Except PEE String × List Call :=
  let diskE : Except PEE String :=
    match env.probeResult mount_point with
    | SubpRes.ok out => Except.ok (pyStrip out)
    | SubpRes.procError fnf stderr =>
      if fnf then Except.ok ""
      else if pyContains stderr "failed to get canonical path" then Except.ok ""
      else Except.error (PEE.mk fnf stderr)
    | SubpRes.otherExc => Except.ok ""
  match diskE with
  | Except.error e => (Except.error e, [Call.grubProbe mount_point])
  | Except.ok disk =>
    if disk = "" ∨ env.pathExists disk = false then
      (Except.ok "", [Call.grubProbe mount_point])
    else
      let devices : List String :=
        match env.udevResult disk with
        | some out => pySplitWS (pyStrip out)
        | none => []
      let byId := devices.filter (fun dev => pyContains dev "disk/by-id")
      let idevs :=
        match pySorted byId with
        | [] => disk
        | d :: _ => d
      (Except.ok idevs, [Call.grubProbe mount_point, Call.udevadmInfo disk])

/-- Allow-list of EFI GRUB owner package names. -/
def valid_efi_owners : List String :=
  ["grub-efi-amd64", "grub-efi-arm64", "grub-efi-ia32"]

/-- Embedding of `get_debconf_owner(log)`, with its trace. -/
def get_debconf_owner (env : Env) : Option String × List Call :=
  if is_efi_booted env = false then
    (some "grub-pc", [])
  else
    match env.listOwners with
    | none => (none, [Call.debconfShowListOwners])
    | some output =>
      match (pySplitlines output).find?
          (fun line => valid_efi_owners.contains (pyStrip line)) with
      | some line => (some (pyStrip line), [Call.debconfShowListOwners])
      | none => (none, [Call.debconfShowListOwners])

/-- The one-line EFI directive
`"%s grub-efi/install_devices string %s\n" % (owner, idevs)`. -/
def efi_directive (owner idevs : String) : String :=
  owner ++ " grub-efi/install_devices string " ++ idevs ++ "\n"

/-- The two-line BIOS directive
`"grub-pc grub-pc/install_devices string %s\ngrub-pc grub-pc/install_devices_empty boolean %s\n" % (idevs, idevs_empty)`. -/
def bios_directive (idevs emptyStr : String) : String :=
  "grub-pc grub-pc/install_devices string " ++ idevs ++ "\n" ++
  "grub-pc grub-pc/install_devices_empty boolean " ++ emptyStr ++ "\n"

/-- Embedding of `get_debconf_config(mycfg, log)`: `Except.ok none` models
the Python `None` return, `Except.ok (some s)` a returned directive string,
`Except.error` an escaping exception. -/
def get_debconf_config (env : Env) (mycfg : MyCfg) :
    Except PEE (Option String) × List Call :=
  if is_efi_booted env = true then
    match get_debconf_owner env with
    | (none, tr) => (Except.ok none, tr)
    | (some owner, tr) =>
      match mycfg.efi_install_devices with
      | some idevs =>
        (Except.ok (some (efi_directive owner idevs)), tr)
      | none =>
        match fetch_idevs env "/boot/efi" with
        | (Except.error e, tr2) => (Except.error e, tr ++ tr2)
        | (Except.ok idevs, tr2) =>
          (Except.ok (some (efi_directive owner idevs)), tr ++ tr2)
  else
    match (match mycfg.pc_install_devices with
           | some s => (Except.ok s, [])
           | none => fetch_idevs env "/boot" : Except PEE String × List Call) with
    | (Except.error e, tr) => (Except.error e, tr)
    | (Except.ok idevs, tr) =>
      let idevs_empty : Bool :=
        match mycfg.pc_install_devices_empty with
        | none => idevs == ""
        | some (CfgVal.bool b) => b
        | some (CfgVal.str s) => translate_bool s
      let emptyStr := if idevs_empty then "true" else "false"
      (Except.ok (some (bios_directive idevs emptyStr)), tr)

/-- Embedding of `handle(name, cfg, cloud, log, args)`: the final
`debconf-set-selections` invocation's own failure is swallowed, so it only
appears in the trace. -/
def handle (env : Env) (cfg : Cfg) : Except PEE Unit × List Call :=
  let mycfg := effective_cfg cfg
  let enabled := mycfg.enabled.getD (CfgVal.bool true)
  if is_false enabled = true then
    (Except.ok (), [])
  else
    match get_debconf_config env mycfg with
    | (Except.error e, tr) => (Except.error e, tr)
    | (Except.ok none, tr) => (Except.ok (), tr)
    | (Except.ok (some dconf_sel), tr) =>
      (Except.ok (), tr ++ [Call.debconfSetSelections dconf_sel])

/-! Concrete environments and configurations used to exercise the model. -/

/-- Concrete environment: BIOS boot, grub-probe raises a
`ProcessExecutionError` whose reason is not a `FileNotFoundError` and whose
stderr is not a canonicalization failure. -/
def envC1 : Env :=
  { probeResult := fun _ => SubpRes.procError false "boom"
    pathExists := fun _ => false
    udevResult := fun _ => none
    listOwners := none
    efiCheck := some false }

/-- Concrete configuration: `grub_dpkg` present with no keys set. -/
def cfgC1 : Cfg :=
  { grub_dpkg := some {} }

/-- Concrete environment: BIOS boot, grub-probe finds `/dev/sdb`, udevadm
reports one by-id and one by-path alias. -/
def envBiosOk : Env :=
  { probeResult := fun _ => SubpRes.ok " /dev/sdb\n"
    pathExists := fun _ => true
    udevResult := fun _ => some "/dev/disk/by-id/ata-XYZ /dev/disk/by-path/pci-0:1\n"
    listOwners := none
    efiCheck := some false }

/-- Concrete environment: EFI boot, the owner query lists an unknown name
first and then `grub-efi-amd64`. -/
def envEfiOk : Env :=
  { probeResult := fun _ => SubpRes.otherExc
    pathExists := fun _ => false
    udevResult := fun _ => none
    listOwners := some "foo\ngrub-efi-amd64\n"
    efiCheck := some true }

/-- Concrete environment: EFI boot, the owner query raises. -/
def envEfiFail : Env :=
  { probeResult := fun _ => SubpRes.otherExc
    pathExists := fun _ => false
    udevResult := fun _ => none
    listOwners := none
    efiCheck := some true }

/-! Order-theoretic facts about the lexicographic comparison, and helper
lemmas about `pySorted` and `List.find?`. -/

theorem lexLe_cons_iff (a b : Char) (as bs : List Char) :
    lexLe (a :: as) (b :: bs) = true ↔
      a.toNat < b.toNat ∨ (a.toNat = b.toNat ∧ lexLe as bs = true) := by
  simp only [lexLe]
  split_ifs with h1 h2
  · simp [h1]
  · simp only [Bool.false_eq_true, false_iff]
    rintro (h | ⟨h, _⟩) <;> omega
  · constructor
    · intro h
      exact Or.inr ⟨by omega, h⟩
    · rintro (h | ⟨_, hl⟩)
      · omega
      · exact hl

theorem lexLe_refl : ∀ l : List Char, lexLe l l = true
  | [] => rfl
  | a :: as => (lexLe_cons_iff a a as as).mpr (Or.inr ⟨rfl, lexLe_refl as⟩)

theorem lexLe_trans : ∀ x y z : List Char,
    lexLe x y = true → lexLe y z = true → lexLe x z = true
  | [], _, _, _, _ => rfl
  | _ :: _, [], _, h, _ => absurd h (by simp [lexLe])
  | _ :: _, _ :: _, [], _, h => absurd h (by simp [lexLe])
  | a :: as, b :: bs, c :: cs, h1, h2 => by
    rw [lexLe_cons_iff] at h1 h2 ⊢
    rcases h1 with h1 | ⟨h1e, h1r⟩
    · rcases h2 with h2 | ⟨h2e, _⟩
      · exact Or.inl (by omega)
      · exact Or.inl (by omega)
    · rcases h2 with h2 | ⟨h2e, h2r⟩
      · exact Or.inl (by omega)
      · exact Or.inr ⟨by omega, lexLe_trans as bs cs h1r h2r⟩

theorem lexLe_total : ∀ x y : List Char, lexLe x y = true ∨ lexLe y x = true
  | [], _ => Or.inl rfl
  | _ :: _, [] => Or.inr rfl
  | a :: as, b :: bs => by
    rcases Nat.lt_trichotomy a.toNat b.toNat with h | h | h
    · exact Or.inl ((lexLe_cons_iff a b as bs).mpr (Or.inl h))
    · rcases lexLe_total as bs with hr | hr
      · exact Or.inl ((lexLe_cons_iff a b as bs).mpr (Or.inr ⟨h, hr⟩))
      · exact Or.inr ((lexLe_cons_iff b a bs as).mpr (Or.inr ⟨h.symm, hr⟩))
    · exact Or.inr ((lexLe_cons_iff b a bs as).mpr (Or.inl h))

instance : IsTotal String strLe :=
  ⟨fun a b => lexLe_total a.data b.data⟩

instance : IsTrans String strLe :=
  ⟨fun a b c => lexLe_trans a.data b.data c.data⟩

theorem strLe_refl (s : String) : strLe s s :=
  lexLe_refl s.data

theorem pySorted_perm (l : List String) : (pySorted l).Perm l :=
  List.perm_insertionSort strLe l

theorem pySorted_sorted (l : List String) : List.Sorted strLe (pySorted l) :=
  List.sorted_insertionSort strLe l

/-- The head of `pySorted l` is a member of `l` and a lower bound of `l`. -/
theorem pySorted_cons_min (l : List String) (m : String) (t : List String)
    (h : pySorted l = m :: t) : m ∈ l ∧ ∀ x ∈ l, strLe m x := by
  have hperm := pySorted_perm l
  have hsort := pySorted_sorted l
  rw [h] at hperm hsort
  refine ⟨hperm.mem_iff.mp (List.mem_cons_self m t), ?_⟩
  intro x hx
  have hx' : x ∈ m :: t := hperm.mem_iff.mpr hx
  rcases List.mem_cons.mp hx' with rfl | hx''
  · exact strLe_refl x
  · exact (List.sorted_cons.mp hsort).1 x hx''

/-- A sorted list of a nonempty list is nonempty (head extraction). -/
theorem pySorted_ne_nil (l : List String) (h : l ≠ []) :
    ∃ m t, pySorted l = m :: t := by
  cases hs : pySorted l with
  | nil =>
    have hlen := (pySorted_perm l).length_eq
    rw [hs] at hlen
    exact absurd (List.length_eq_zero.mp hlen.symm) h
  | cons m t => exact ⟨m, t, rfl⟩

/-- A successful `find?` splits the list at the first match. -/
theorem find?_eq_some_split {α : Type} (p : α → Bool) :
    ∀ (l : List α) (x : α), l.find? p = some x →
      ∃ pre post, l = pre ++ x :: post ∧ (∀ y ∈ pre, p y = false) ∧ p x = true
  | [], x, h => by simp [List.find?] at h
  | a :: as, x, h => by
    by_cases hp : p a = true
    · rw [List.find?_cons_of_pos _ hp] at h
      obtain rfl : a = x := by injection h
      exact ⟨[], as, rfl, by simp, hp⟩
    · rw [List.find?_cons_of_neg _ hp] at h
      obtain ⟨pre, post, heq, hpre, hx⟩ := find?_eq_some_split p as x h
      refine ⟨a :: pre, post, by simp [heq], ?_, hx⟩
      intro y hy
      rcases List.mem_cons.mp hy with rfl | hy'
      · simpa using hp
      · exact hpre y hy'

/-- Conversely `find?` returns the match placed after non-matching elements. -/
theorem find?_append_first {α : Type} (p : α → Bool) :
    ∀ (pre : List α) (x : α) (post : List α),
      (∀ y ∈ pre, p y = false) → p x = true →
      (pre ++ x :: post).find? p = some x
  | [], x, post, _, hx => by
    simp [List.find?_cons_of_pos _ hx]
  | a :: pre, x, post, hpre, hx => by
    have ha : ¬ p a = true := by
      simp [hpre a (List.mem_cons_self a pre)]
    rw [List.cons_append, List.find?_cons_of_neg _ ha]
    exact find?_append_first p pre x post
      (fun y hy => hpre y (List.mem_cons_of_mem a hy)) hx

/-- Helper: in BIOS mode, once the device identifier resolves to `idevs`
(config value when present, otherwise the prober's result), the returned
directive is the two-line grub-pc string with the boolean computed from
`grub-pc/install_devices_empty` (defaulting to emptiness of `idevs`). -/
theorem get_debconf_config_bios (env : Env) (mycfg : MyCfg)
    (hbios : is_efi_booted env = false) (idevs : String)
    (h : (match mycfg.pc_install_devices with
          | some s => Except.ok s
          | none => (fetch_idevs env "/boot").1) = Except.ok idevs) :
    (get_debconf_config env mycfg).1 = Except.ok (some
      (bios_directive idevs
        (if (match mycfg.pc_install_devices_empty with
             | none => idevs == ""
             | some (CfgVal.bool b) => b
             | some (CfgVal.str s) => translate_bool s) then "true" else "false"))) := by
  simp only [get_debconf_config, hbios, Bool.false_eq_true, if_false]
  cases hpc : mycfg.pc_install_devices with
  | some s =>
    rw [hpc] at h
    obtain rfl : s = idevs := by injection h
    simp
  | none =>
    rw [hpc] at h
    rcases hf : fetch_idevs env "/boot" with ⟨fst, tr⟩
    rw [hf] at h
    simp only at h
    subst h
    simp [hf]

/-- Claim C2: in the BIOS branch with `grub-pc/install_devices_empty`
absent, the emitted boolean is "true" exactly when the resolved device
identifier (the configured `grub-pc/install_devices` if present, otherwise
the prober's result) is the empty string, and "false" otherwise. -/
theorem C2_empty_default_tracks_resolved_idevs (env : Env) (mycfg : MyCfg)
    (hbios : is_efi_booted env = false)
    (habs : mycfg.pc_install_devices_empty = none) (idevs : String)
    (h : (match mycfg.pc_install_devices with
          | some s => Except.ok s
          | none => (fetch_idevs env "/boot").1) = Except.ok idevs) :
    (get_debconf_config env mycfg).1 = Except.ok (some
      (bios_directive idevs (if idevs = "" then "true" else "false"))) := by
  have hmain := get_debconf_config_bios env mycfg hbios idevs h
  rw [habs] at hmain
  simpa [beq_iff_eq] using hmain

/-- Claim C2 witness: an explicitly configured empty-string
`grub-pc/install_devices` (with the empty-flag key absent) yields the
boolean "true", even though the prober would have found a device. -/
theorem C2_witness :
    (get_debconf_config envBiosOk { pc_install_devices := some "" }).1 =
      Except.ok (some
        "grub-pc grub-pc/install_devices string \ngrub-pc grub-pc/install_devices_empty boolean true\n") := by
  have h := C2_empty_default_tracks_resolved_idevs envBiosOk
    { pc_install_devices := some "" } rfl rfl "" rfl
  rw [h]
  decide

/-- Claim C5: in BIOS mode the produced directive is exactly the two lines
`grub-pc grub-pc/install_devices string <idevs>\n` then
`grub-pc grub-pc/install_devices_empty boolean <true|false>\n`, and with
configured `grub-pc/install_devices = /dev/sda` the output is byte-for-byte
the example string. -/
theorem C5_bios_directive_format (env : Env) (mycfg : MyCfg)
    (hbios : is_efi_booted env = false) :
    (∀ out, (get_debconf_config env mycfg).1 = Except.ok (some out) →
      ∃ idevs b, (b = "true" ∨ b = "false") ∧ out = bios_directive idevs b) ∧
    (mycfg.pc_install_devices = some "/dev/sda" →
      mycfg.pc_install_devices_empty = none →
      (get_debconf_config env mycfg).1 = Except.ok (some
        "grub-pc grub-pc/install_devices string /dev/sda\ngrub-pc grub-pc/install_devices_empty boolean false\n")) := by
  constructor
  · intro out hout
    rcases hr : (match mycfg.pc_install_devices with
                 | some s => Except.ok s
                 | none => (fetch_idevs env "/boot").1 : Except PEE String) with e | idevs
    · rw [get_debconf_config, if_neg (by simp [hbios])] at hout
      cases hpc : mycfg.pc_install_devices with
      | some s => rw [hpc] at hr; cases hr
      | none =>
        rw [hpc] at hr
        rcases hf : fetch_idevs env "/boot" with ⟨fst, tr⟩
        rw [hf] at hr
        simp only at hr
        subst hr
        rw [hpc] at hout
        rw [hf] at hout
        simp at hout
    · have hmain := get_debconf_config_bios env mycfg hbios idevs hr
      rw [hout] at hmain
      obtain rfl : out = _ := by injection hmain with h1; injection h1
      refine ⟨idevs, _, ?_, rfl⟩
      split <;> simp
  · intro hdev habs
    have hmain := get_debconf_config_bios env mycfg hbios "/dev/sda" (by rw [hdev])
    rw [habs] at hmain
    rw [hmain]
    decide

/-- Claim C5 witness: the first conjunct applied to the concrete BIOS
environment, and the second conjunct evaluated at the example config. -/
theorem C5_witness :
    (get_debconf_config envBiosOk { pc_install_devices := some "/dev/sda" }).1 =
      Except.ok (some
        "grub-pc grub-pc/install_devices string /dev/sda\ngrub-pc grub-pc/install_devices_empty boolean false\n") :=
  (C5_bios_directive_format envBiosOk { pc_install_devices := some "/dev/sda" } rfl).2
    rfl rfl

/-- Claim C6: in EFI mode with a resolved owner, the device identifier is
the configured `grub-efi/install_devices` when present and otherwise the
prober's result for `/boot/efi`, and the directive is the single line
`<owner> grub-efi/install_devices string <idevs>\n`. -/
theorem C6_efi_directive (env : Env) (mycfg : MyCfg) (owner : String)
    (hefi : is_efi_booted env = true)
    (howner : (get_debconf_owner env).1 = some owner) :
    (∀ v, mycfg.efi_install_devices = some v →
      (get_debconf_config env mycfg).1 =
        Except.ok (some (efi_directive owner v))) ∧
    (mycfg.efi_install_devices = none →
      ∀ d, (fetch_idevs env "/boot/efi").1 = Except.ok d →
        (get_debconf_config env mycfg).1 =
          Except.ok (some (efi_directive owner d))) := by
  rcases hgo : get_debconf_owner env with ⟨o, tr⟩
  rw [hgo] at howner
  simp only at howner
  subst howner
  constructor
  · intro v hv
    rw [get_debconf_config, if_pos (by simp [hefi]), hgo, hv]
  · intro habs d hd
    rw [get_debconf_config, if_pos (by simp [hefi]), hgo, habs]
    rcases hf : fetch_idevs env "/boot/efi" with ⟨fst, tr2⟩
    rw [hf] at hd
    simp only at hd
    subst hd
    simp

/-- Claim C6 witness: EFI boot, owner resolves to grub-efi-amd64, config
supplies `/dev/sda`; the directive is the example line. -/
theorem C6_witness :
    (get_debconf_config envEfiOk { efi_install_devices := some "/dev/sda" }).1 =
      Except.ok (some "grub-efi-amd64 grub-efi/install_devices string /dev/sda\n") := by
  rw [(C6_efi_directive envEfiOk { efi_install_devices := some "/dev/sda" }
    "grub-efi-amd64" rfl (by decide)).1 "/dev/sda" rfl]
  decide

/-- Claim C7: an explicitly configured truthy string variant ("yes",
"true", "1") for `grub-pc/install_devices_empty` makes the BIOS branch
emit the boolean literal "true", whatever identifier was resolved. -/
theorem C7_truthy_string_forces_true (env : Env) (mycfg : MyCfg) (s : String)
    (hbios : is_efi_booted env = false)
    (hset : mycfg.pc_install_devices_empty = some (CfgVal.str s))
    (hs : s = "yes" ∨ s = "true" ∨ s = "1") (idevs : String)
    (h : (match mycfg.pc_install_devices with
          | some v => Except.ok v
          | none => (fetch_idevs env "/boot").1) = Except.ok idevs) :
    (get_debconf_config env mycfg).1 =
      Except.ok (some (bios_directive idevs "true")) := by
  have htb : translate_bool s = true := by
    rcases hs with rfl | rfl | rfl <;> decide
  have hmain := get_debconf_config_bios env mycfg hbios idevs h
  rw [hset] at hmain
  simpa [htb] using hmain

/-- Claim C7 witness: with the prober resolving a non-empty device and the
key set to the string "yes", the boolean emitted is still "true". -/
theorem C7_witness :
    (get_debconf_config envBiosOk
      { pc_install_devices_empty := some (CfgVal.str "yes") }).1 =
      Except.ok (some
        "grub-pc grub-pc/install_devices string /dev/disk/by-id/ata-XYZ\ngrub-pc grub-pc/install_devices_empty boolean true\n") := by
  rw [C7_truthy_string_forces_true envBiosOk
    { pc_install_devices_empty := some (CfgVal.str "yes") } "yes" rfl rfl
    (Or.inl rfl) "/dev/disk/by-id/ata-XYZ" (by decide)]
  decide

/-- Claim C10: when the system is not EFI-booted, `get_debconf_owner`
returns the constant "grub-pc" with an empty invocation trace, so the BIOS
path never queries the debconf database for an owner. -/
theorem C10_bios_owner_constant (env : Env)
    (h : is_efi_booted env = false) :
    get_debconf_owner env = (some "grub-pc", []) := by
  rw [get_debconf_owner, if_pos h]

/-- Claim C10 witness: a concrete BIOS environment whose owner query would
answer, yet the resolver neither uses it nor records an invocation. -/
theorem C10_witness : get_debconf_owner envBiosOk = (some "grub-pc", []) :=
  C10_bios_owner_constant envBiosOk rfl

/-- Helper: a list whose `pySorted` image is empty is empty. -/
theorem pySorted_eq_nil (l : List String) (h : pySorted l = []) : l = [] := by
  have hlen := (pySorted_perm l).length_eq
  rw [h] at hlen
  exact List.length_eq_zero.mp hlen.symm

/-- Helper: the owner resolver performs at most the single
`debconf-show --listowners` invocation. -/
theorem get_debconf_owner_trace (env : Env) :
    (get_debconf_owner env).2 = [] ∨
    (get_debconf_owner env).2 = [Call.debconfShowListOwners] := by
  rw [get_debconf_owner]
  split_ifs
  · exact Or.inl rfl
  · cases env.listOwners with
    | none => exact Or.inr rfl
    | some out =>
      dsimp only
      split <;> exact Or.inr rfl

/-- Claim C9: a value returned by `fetch_idevs` is the empty string, the
probed (stripped) disk path itself, or one of the queried udevadm aliases
containing the "disk/by-id" substring — never any other string. -/
theorem C9_fetch_idevs_shape (env : Env) (mp r : String)
    (h : (fetch_idevs env mp).1 = Except.ok r) :
    r = "" ∨
    (∃ out, env.probeResult mp = SubpRes.ok out ∧ r = pyStrip out) ∨
    (∃ out uout, env.probeResult mp = SubpRes.ok out ∧
      env.udevResult (pyStrip out) = some uout ∧
      r ∈ pySplitWS (pyStrip uout) ∧ pyContains r "disk/by-id" = true) := by
  rw [fetch_idevs] at h
  cases hpr : env.probeResult mp with
  | procError fnf stderr =>
    rw [hpr] at h
    by_cases hfnf : fnf = true
    · simp only [hfnf, if_true, if_pos] at h
      simp at h
      exact Or.inl h.symm
    · by_cases hcp : pyContains stderr "failed to get canonical path" = true
      · simp only [hfnf, hcp] at h
        simp at h
        exact Or.inl h.symm
      · simp only [hfnf, hcp] at h
        simp at h
  | otherExc =>
    rw [hpr] at h
    simp at h
    exact Or.inl h.symm
  | ok out =>
    rw [hpr] at h
    simp only at h
    by_cases hd : pyStrip out = "" ∨ env.pathExists (pyStrip out) = false
    · rw [if_pos hd] at h
      simp at h
      exact Or.inl h.symm
    · rw [if_neg hd] at h
      cases hud : env.udevResult (pyStrip out) with
      | none =>
        rw [hud] at h
        simp only [List.filter_nil] at h
        have hnil : pySorted ([] : List String) = [] := rfl
        rw [hnil] at h
        simp at h
        exact Or.inr (Or.inl ⟨out, rfl, h.symm⟩)
      | some uout =>
        rw [hud] at h
        simp only at h
        cases hsort : pySorted ((pySplitWS (pyStrip uout)).filter
            (fun dev => pyContains dev "disk/by-id")) with
        | nil =>
          rw [hsort] at h
          simp at h
          exact Or.inr (Or.inl ⟨out, rfl, h.symm⟩)
        | cons m t =>
          rw [hsort] at h
          simp at h
          obtain ⟨hmem, _⟩ := pySorted_cons_min _ m t hsort
          rw [List.mem_filter] at hmem
          exact Or.inr (Or.inr ⟨out, uout, rfl, hud, h ▸ hmem.1, h ▸ hmem.2⟩)

/-- Claim C9 witness: the shape disjunction holds of the concrete result
`/dev/disk/by-id/ata-XYZ` fetched in the concrete BIOS environment. -/
theorem C9_witness :
    ("/dev/disk/by-id/ata-XYZ" : String) = "" ∨
    (∃ out, envBiosOk.probeResult "/boot" = SubpRes.ok out ∧
      "/dev/disk/by-id/ata-XYZ" = pyStrip out) ∨
    (∃ out uout, envBiosOk.probeResult "/boot" = SubpRes.ok out ∧
      envBiosOk.udevResult (pyStrip out) = some uout ∧
      "/dev/disk/by-id/ata-XYZ" ∈ pySplitWS (pyStrip uout) ∧
      pyContains "/dev/disk/by-id/ata-XYZ" "disk/by-id" = true) :=
  C9_fetch_idevs_shape envBiosOk "/boot" "/dev/disk/by-id/ata-XYZ" (by decide)

/-- Claim C3: once a disk is probed, exists, and the symlink query
answers, `fetch_idevs` returns the lexicographically smallest alias
containing "disk/by-id" when at least one such alias exists (never a
non-by-id alias), and the stripped probed disk path unchanged when none
does. -/
theorem C3_by_id_selection (env : Env) (mp out uout : String)
    (hprobe : env.probeResult mp = SubpRes.ok out)
    (hdisk : pyStrip out ≠ "")
    (hexists : env.pathExists (pyStrip out) = true)
    (hudev : env.udevResult (pyStrip out) = some uout) :
    ∃ r, (fetch_idevs env mp).1 = Except.ok r ∧
      (((pySplitWS (pyStrip uout)).filter (fun dev => pyContains dev "disk/by-id") = [] →
        r = pyStrip out) ∧
       ((pySplitWS (pyStrip uout)).filter (fun dev => pyContains dev "disk/by-id") ≠ [] →
        r ∈ (pySplitWS (pyStrip uout)).filter (fun dev => pyContains dev "disk/by-id") ∧
        ∀ d ∈ (pySplitWS (pyStrip uout)).filter (fun dev => pyContains dev "disk/by-id"),
          strLe r d)) := by
  rw [fetch_idevs, hprobe]
  simp only
  rw [if_neg (by simp [hdisk, hexists]), hudev]
  simp only
  cases hsort : pySorted ((pySplitWS (pyStrip uout)).filter
      (fun dev => pyContains dev "disk/by-id")) with
  | nil =>
    refine ⟨pyStrip out, rfl, fun _ => rfl, fun hne => ?_⟩
    exact absurd (pySorted_eq_nil _ hsort) hne
  | cons m t =>
    obtain ⟨hmem, hmin⟩ := pySorted_cons_min _ m t hsort
    refine ⟨m, rfl, fun hnil => ?_, fun _ => ⟨hmem, hmin⟩⟩
    rw [hnil] at hsort
    cases hsort

/-- Claim C3 witness: with aliases `/dev/disk/by-id/ata-XYZ` and
`/dev/disk/by-path/pci-0:1`, the by-id alias is selected. -/
theorem C3_witness :
    (fetch_idevs envBiosOk "/boot").1 = Except.ok "/dev/disk/by-id/ata-XYZ" := by
  obtain ⟨r, hr, hcase⟩ := C3_by_id_selection envBiosOk "/boot" " /dev/sdb\n"
    "/dev/disk/by-id/ata-XYZ /dev/disk/by-path/pci-0:1\n" rfl (by decide) rfl rfl
  obtain ⟨hmem, _⟩ := hcase.2 (by decide)
  have hbyid : (pySplitWS (pyStrip "/dev/disk/by-id/ata-XYZ /dev/disk/by-path/pci-0:1\n")).filter
      (fun dev => pyContains dev "disk/by-id") = ["/dev/disk/by-id/ata-XYZ"] := by decide
  rw [hbyid] at hmem
  obtain rfl : r = "/dev/disk/by-id/ata-XYZ" := List.mem_singleton.mp hmem
  exact hr

/-- Claim C4: in EFI mode the owner resolver returns the first line of the
owner-listing output (trimmed, in output order) equal to one of the three
allow-listed names, `none` when no line matches or the query fails, and a
`none` owner makes the module finish without error and without ever
invoking `debconf-set-selections`. -/
theorem C4_efi_owner_resolution (env : Env) (hefi : is_efi_booted env = true) :
    (env.listOwners = none → (get_debconf_owner env).1 = none) ∧
    (∀ out, env.listOwners = some out →
      ((∀ l ∈ pySplitlines out, valid_efi_owners.contains (pyStrip l) = false) →
        (get_debconf_owner env).1 = none) ∧
      (∀ pre l post, pySplitlines out = pre ++ l :: post →
        (∀ y ∈ pre, valid_efi_owners.contains (pyStrip y) = false) →
        valid_efi_owners.contains (pyStrip l) = true →
        (get_debconf_owner env).1 = some (pyStrip l))) ∧
    ((get_debconf_owner env).1 = none →
      ∀ cfg, (handle env cfg).1 = Except.ok () ∧
        ∀ d, Call.debconfSetSelections d ∉ (handle env cfg).2) := by
  refine ⟨?_, ?_, ?_⟩
  · intro hq
    rw [get_debconf_owner, if_neg (by simp [hefi]), hq]
  · intro out hq
    constructor
    · intro hnone
      rw [get_debconf_owner, if_neg (by simp [hefi]), hq]
      have hfind : (pySplitlines out).find?
          (fun line => valid_efi_owners.contains (pyStrip line)) = none := by
        rw [List.find?_eq_none]
        intro x hx
        simpa using hnone x hx
      dsimp only
      rw [hfind]
    · intro pre l post hsplit hpre hl
      rw [get_debconf_owner, if_neg (by simp [hefi]), hq]
      dsimp only
      rw [hsplit, find?_append_first _ pre l post hpre hl]
  · intro hnone cfg
    by_cases hdis :
        is_false ((effective_cfg cfg).enabled.getD (CfgVal.bool true)) = true
    · have hh : handle env cfg = (Except.ok (), []) := by
        rw [handle]
        simp [hdis]
      rw [hh]
      exact ⟨rfl, by simp⟩
    · have hcfg : get_debconf_config env (effective_cfg cfg) =
          (Except.ok none, (get_debconf_owner env).2) := by
        rw [get_debconf_config, if_pos hefi]
        rcases hgo : get_debconf_owner env with ⟨o, tr⟩
        rw [hgo] at hnone
        simp only at hnone
        subst hnone
        rfl
      rw [handle]
      simp only [hdis, if_false, Bool.false_eq_true]
      rw [hcfg]
      refine ⟨rfl, ?_⟩
      intro d hd
      rcases get_debconf_owner_trace env with htr | htr <;> rw [htr] at hd <;>
        simp at hd

/-- Claim C4 witness: the owner query order is respected in a concrete EFI
environment, a failed query yields `none`, and with no owner the module
completes without invoking the selection setter. -/
theorem C4_witness :
    (get_debconf_owner envEfiOk).1 = some "grub-efi-amd64" ∧
    (get_debconf_owner envEfiFail).1 = none ∧
    (handle envEfiFail cfgC1).1 = Except.ok () ∧
    Call.debconfSetSelections "x" ∉ (handle envEfiFail cfgC1).2 := by
  have hfail := (C4_efi_owner_resolution envEfiFail rfl).1 rfl
  have hrest := (C4_efi_owner_resolution envEfiFail rfl).2.2 hfail cfgC1
  refine ⟨?_, hfail, hrest.1, hrest.2 "x"⟩
  have hfirst := ((C4_efi_owner_resolution envEfiOk rfl).2.1
    "foo\ngrub-efi-amd64\n" rfl).2 ["foo"] "grub-efi-amd64" [] (by decide)
    (by decide) (by decide)
  rw [hfirst]
  decide

/-- Claim C8: the module is enabled by default — it returns early with no
subprocess invocation at all exactly when the `enabled` field is present
and evaluates false; otherwise processing proceeds through probing,
formatting, and the selection-setter invocation.  The effective
sub-configuration comes from `grub_dpkg`, falling back to the alias
`grub-dpkg` only when `grub_dpkg` is absent. -/
theorem C8_enabled_gate (env : Env) (cfg : Cfg) :
    (∀ v, (effective_cfg cfg).enabled = some v → is_false v = true →
      handle env cfg = (Except.ok (), [])) ∧
    (((effective_cfg cfg).enabled = none ∨
      (∃ v, (effective_cfg cfg).enabled = some v ∧ is_false v = false)) →
      ∀ d, (get_debconf_config env (effective_cfg cfg)).1 = Except.ok (some d) →
        (handle env cfg).1 = Except.ok () ∧
        (handle env cfg).2 =
          (get_debconf_config env (effective_cfg cfg)).2 ++
            [Call.debconfSetSelections d]) ∧
    (∀ m a, effective_cfg { grub_dpkg := some m, grub_dpkg_alias := a } = m) ∧
    (∀ m, effective_cfg { grub_dpkg := none, grub_dpkg_alias := some m } = m) := by
  refine ⟨?_, ?_, fun m a => rfl, fun m => rfl⟩
  · intro v hv hfalse
    rw [handle]
    simp only [hv, Option.getD_some, hfalse, if_true, if_pos]
  · intro hen d hd
    have hnf : is_false ((effective_cfg cfg).enabled.getD (CfgVal.bool true)) = false := by
      rcases hen with h | ⟨v, hv, hfv⟩
      · rw [h]
        rfl
      · rw [hv]
        exact hfv
    rw [handle]
    simp only [hnf, Bool.false_eq_true, if_false]
    rcases hg : get_debconf_config env (effective_cfg cfg) with ⟨res, tr⟩
    rw [hg] at hd
    simp only at hd
    subst hd
    exact ⟨rfl, rfl⟩

/-- Claim C8 witness: a disabled config short-circuits to no effect, and an
enabled default config runs through to the setter invocation. -/
theorem C8_witness :
    handle envBiosOk { grub_dpkg := some { enabled := some (CfgVal.str "no") } } =
      (Except.ok (), []) ∧
    (handle envBiosOk { grub_dpkg := some { pc_install_devices := some "/dev/sda" } }).2 =
      (get_debconf_config envBiosOk { pc_install_devices := some "/dev/sda" }).2 ++
        [Call.debconfSetSelections
          "grub-pc grub-pc/install_devices string /dev/sda\ngrub-pc grub-pc/install_devices_empty boolean false\n"] := by
  constructor
  · exact (C8_enabled_gate envBiosOk
      { grub_dpkg := some { enabled := some (CfgVal.str "no") } }).1
      (CfgVal.str "no") rfl (by decide)
  · exact ((C8_enabled_gate envBiosOk
      { grub_dpkg := some { pc_install_devices := some "/dev/sda" } }).2.1
      (Or.inl rfl) _ (by decide)).2

/-- Claim C1 counterexample: with a probe failure that is neither
"executable not found" nor a canonicalization failure, the re-raised error
propagates out of `handle` — the probing step does not yield an empty
identifier and the module does not complete without raising. -/
theorem C1_counterexample :
    (fetch_idevs envC1 "/boot").1 = Except.error (PEE.mk false "boom") ∧
    (handle envC1 cfgC1).1 = Except.error (PEE.mk false "boom") ∧
    ¬ (handle envC1 cfgC1).1 = Except.ok () := by
  decide

/-- Claim C1 as amended: an execution error of the probe that is neither
"executable not found" nor a canonicalization failure is re-raised by
`fetch_idevs` and propagates uncaught out of `handle` (the module raises);
the broad handler catches only failures that are not
`ProcessExecutionError`s, and for those the probing step yields the empty
identifier. -/
theorem C1_amended_reraise_propagates (env : Env) (mp : String)
    (fnf : Bool) (stderr : String) :
    (env.probeResult mp = SubpRes.procError fnf stderr → fnf = false →
      pyContains stderr "failed to get canonical path" = false →
      (fetch_idevs env mp).1 = Except.error (PEE.mk fnf stderr)) ∧
    (env.probeResult mp = SubpRes.otherExc →
      (fetch_idevs env mp).1 = Except.ok "") ∧
    (∀ cfg e, is_efi_booted env = false →
      (effective_cfg cfg).pc_install_devices = none →
      is_false ((effective_cfg cfg).enabled.getD (CfgVal.bool true)) = false →
      (fetch_idevs env "/boot").1 = Except.error e →
      (handle env cfg).1 = Except.error e) := by
  refine ⟨?_, ?_, ?_⟩
  · intro hpr hfnf hcp
    rw [fetch_idevs, hpr]
    simp only [hfnf, hcp, Bool.false_eq_true, if_false]
  · intro hpr
    rw [fetch_idevs, hpr]
    simp
  · intro cfg e hbios hpc hen hf
    have hcfg : (get_debconf_config env (effective_cfg cfg)).1 = Except.error e := by
      rw [get_debconf_config, if_neg (by simp [hbios]), hpc]
      rcases hfp : fetch_idevs env "/boot" with ⟨fst, tr⟩
      rw [hfp] at hf
      simp only at hf
      subst hf
      rfl
    rw [handle]
    simp only [hen, Bool.false_eq_true, if_false]
    rcases hg : get_debconf_config env (effective_cfg cfg) with ⟨res, tr⟩
    rw [hg] at hcfg
    simp only at hcfg
    subst hcfg
    rfl

/-- Claim C1 witness: the amended behaviour at the concrete failing
environment — `fetch_idevs` yields the re-raised error, the benign
non-`ProcessExecutionError` failure yields the empty identifier, and
`handle` propagates the re-raised error. -/
theorem C1_witness :
    (fetch_idevs envC1 "/boot").1 = Except.error (PEE.mk false "boom") ∧
    (fetch_idevs envEfiFail "/boot").1 = Except.ok "" ∧
    (handle envC1 cfgC1).1 = Except.error (PEE.mk false "boom") := by
  refine ⟨?_, ?_, ?_⟩
  · exact (C1_amended_reraise_propagates envC1 "/boot" false "boom").1 rfl rfl (by decide)
  · exact (C1_amended_reraise_propagates envEfiFail "/boot" false "").2.1 rfl
  · exact (C1_amended_reraise_propagates envC1 "/boot" false "boom").2.2 cfgC1
      (PEE.mk false "boom") rfl rfl rfl
      ((C1_amended_reraise_propagates envC1 "/boot" false "boom").1 rfl rfl (by decide))

end GrubDpkg
